import Mathlib

/-
Shallow embedding of the Monte Carlo confidence-interval / detection-power
simulation from the statistics notebook (src/poline-stats/evil-p.ipynb).

Modelling conventions:
  * Real-valued samples and statistics are embedded as rationals.  Division by
    zero follows the Lean convention x / 0 = 0; where numpy would produce NaN
    (for example the 0/0 arising from np.std with ddof=1 on a length-one
    sample, or the mean of an empty selection) the embedding produces the
    corresponding degenerate rational value.  No claim below depends on the
    particular junk value, only on whether an error is raised and on which
    subexpressions feed the result.
  * The two external numeric capabilities, the Student-t inverse survival
    function sst.t(df).isf and the square root np.sqrt, are fields of a
    StatEnv record.  Theorems that need analytic facts about them (the isf of
    an upper-tail probability below one half is nonnegative; sqrt is
    nonnegative) take those facts as explicit hypotheses.
  * The numpy global random generator is modelled as a stream of standard
    normal variates together with a cursor (Rng).  A draw from
    sst.norm(loc, scale) is the location-scale image loc + scale * z of the
    next standard variate z, and advances the cursor; this is the usual
    location-scale representation of normal sampling and is what makes the
    two sampling procedures of the refinement claim comparable.
  * A Python call is embedded with result type Except String _; the error
    branch is the image of a Python exception, so "the call raises" is
    "the result is Except.error".  The body of confidence_interval itself
    contains no raise, but scipy validates distribution arguments at the
    rvs call: a negative scale raises a domain ValueError before any draw
    (a zero scale passes the check and yields constant draws), and that
    exception propagates out of confidence_interval.  This is the only
    error path of the program; every other parameter setting returns
    normally.
-/

namespace EvilP

/-- External numeric capabilities used by the notebook: isf df q embeds
sst.t(df).isf(q), and sqrt embeds np.sqrt. -/
structure StatEnv where
  isf : Nat → ℚ → ℚ
  sqrt : ℚ → ℚ

/-- The numpy global random generator after np.random.seed: a stream of
standard normal variates and the position of the next unconsumed draw. -/
structure Rng where
  stream : Nat → ℚ
  pos : Nat

/-- The n draws of sst.norm(loc, scale).rvs(size=(n,)) when the scale is
accepted: the location-scale image of the next n standard variates. -/
def norm_draws (loc scale : ℚ) (n : Nat) (g : Rng) : List ℚ :=
  (List.range n).map fun i => loc + scale * g.stream (g.pos + i)

/-- Embeds sst.norm(loc, scale).rvs(size=(n,)): scipy validates the
distribution arguments before drawing and raises a domain ValueError when
the scale is negative (a zero scale passes the check and yields constant
draws); otherwise the call returns the n location-scale draws and advances
the cursor. -/
def norm_rvs (loc scale : ℚ) (n : Nat) (g : Rng) : Except String (List ℚ × Rng) :=
  if scale < 0 then .error "Domain error in arguments"
  else .ok (norm_draws loc scale n g, ⟨g.stream, g.pos + n⟩)

/-- The parameter dictionary prmtrs (keys n, mu, sigma, alpha) passed to
confidence_interval. -/
structure Prmtrs where
  n : Nat
  mu : ℚ
  sigma : ℚ
  alpha : ℚ
deriving DecidableEq

/-- The tuple (effect, lCI, uCI, t) returned by confidence_interval. -/
structure TrialResult where
  effect : ℚ
  lCI : ℚ
  uCI : ℚ
  t : ℚ
deriving DecidableEq

/-- Embeds sample.mean() and np.mean: sum divided by length. -/
def np_mean (xs : List ℚ) : ℚ := xs.sum / (xs.length : ℚ)

/-- Embeds np.var(xs, ddof=1): sum of squared deviations from the mean,
divided by length - 1 (the Bessel-corrected divisor). -/
def np_var_ddof1 (xs : List ℚ) : ℚ :=
  ((xs.map fun x => (x - np_mean xs) ^ 2).sum) / ((xs.length : ℚ) - 1)

/-- Embeds np.std(xs, ddof=1) = np.sqrt(np.var(xs, ddof=1)). -/
def np_std_ddof1 (env : StatEnv) (xs : List ℚ) : ℚ := env.sqrt (np_var_ddof1 xs)

/-- Embeds t_value_from_sample from the notebook: N = len(sample),
t = mean / (sqrt(var(sample, ddof=1)) / sqrt(N)). -/
def t_value_from_sample (env : StatEnv) (sample : List ℚ) : ℚ :=
  let N : ℚ := (sample.length : ℚ)
  let sample_mean := np_mean sample
  let sample_std := env.sqrt (np_var_ddof1 sample)
  sample_mean / (sample_std / env.sqrt N)

/-- Embeds confidence_interval(CI=.95, **prmtrs) from the notebook.  The body
unpacks n, mu, alpha, sigma, computes theta and the two critical values t_ci
and t_alph (t_alph is computed but never used in the returned value, exactly
as in the source), draws the sample from sst.norm(0., sigma) and adds mu,
and returns (effect, lCI, uCI, t).  The Python body contains no raise and no
parameter check of its own; the only exception that can escape is the scipy
domain ValueError from norv.rvs when sigma < 0, which propagates. -/
def confidence_interval (env : StatEnv) (CI : ℚ) (p : Prmtrs) (g : Rng) :
    Except String (TrialResult × Rng) :=
  let n := p.n
  let mu := p.mu
  let alpha := p.alpha
  let sigma := p.sigma
  let df := n - 1
  let theta := mu * env.sqrt (n : ℚ) / sigma
  let t_ci := env.isf df ((1 - CI) / 2)
  let t_alph := env.isf df alpha
  match norm_rvs 0 sigma n g with
  | .error e => .error e
  | .ok sg =>
    let sample := sg.1.map fun x => x + mu
    let effect := np_mean sample
    let std_error_data := np_std_ddof1 env sample
    let std_error_mean := std_error_data / env.sqrt (n : ℚ)
    let t := effect / std_error_mean
    let CI_ := t_ci * std_error_mean
    let lCI := effect - CI_
    let uCI := effect + CI_
    .ok (⟨effect, lCI, uCI, t⟩, sg.2)

/-- Modelled from the spec, for the refinement claim only: the sampling step
as the spec words it, drawing the n samples directly from a normal
distribution with mean mu and standard deviation sigma, instead of drawing
from sst.norm(0., sigma) and adding mu afterwards as the code does.  All
other lines are those of confidence_interval. -/
def confidence_interval_specDraw (env : StatEnv) (CI : ℚ) (p : Prmtrs) (g : Rng) :
    Except String (TrialResult × Rng) :=
  let n := p.n
  let mu := p.mu
  let alpha := p.alpha
  let sigma := p.sigma
  let df := n - 1
  let theta := mu * env.sqrt (n : ℚ) / sigma
  let t_ci := env.isf df ((1 - CI) / 2)
  let t_alph := env.isf df alpha
  match norm_rvs mu sigma n g with
  | .error e => .error e
  | .ok sg =>
    let sample := sg.1
    let effect := np_mean sample
    let std_error_data := np_std_ddof1 env sample
    let std_error_mean := std_error_data / env.sqrt (n : ℚ)
    let t := effect / std_error_mean
    let CI_ := t_ci * std_error_mean
    let lCI := effect - CI_
    let uCI := effect + CI_
    .ok (⟨effect, lCI, uCI, t⟩, sg.2)

/-- The detection rule of the driver cell: detect = t > t_alpha, applied
pointwise to the t column. -/
def detect (t_alpha : ℚ) (r : TrialResult) : Bool := decide (t_alpha < r.t)

/-- The aggregate quantities printed by the driver cells: detect.sum(),
effect.mean(), effect[detect].mean(), and the two coverage-violation counts
(lCI[detect] > mu).sum() + (uCI[detect] < mu).sum(). -/
structure AggregateReport where
  detectionCount : Nat
  meanEffectAll : ℚ
  meanEffectDetected : ℚ
  coverageViolationCount : Nat
deriving DecidableEq

/-- Folds the per-trial tuples into the printed aggregate, with
t_alpha = sst.t(n-1).isf(alpha) recomputed outside the loop as in the
driver cell. -/
def aggregate (env : StatEnv) (p : Prmtrs) (rs : List TrialResult) : AggregateReport :=
  let t_alpha := env.isf (p.n - 1) p.alpha
  let detected := rs.filter (detect t_alpha)
  { detectionCount := (rs.filter (detect t_alpha)).length
    meanEffectAll := np_mean (rs.map TrialResult.effect)
    meanEffectDetected := np_mean (detected.map TrialResult.effect)
    coverageViolationCount :=
      (detected.filter fun r => decide (p.mu < r.lCI)).length
        + (detected.filter fun r => decide (r.uCI < p.mu)).length }

/-- The simulation loop of the driver cell: Nexp sequential calls of
confidence_interval, threading the global generator; a raise inside any call
would propagate, exactly as in Python. -/
def run_trials (env : StatEnv) (CI : ℚ) (p : Prmtrs) :
    Nat → Rng → Except String (List TrialResult × Rng)
  | 0, g => .ok ([], g)
  | k + 1, g =>
    match run_trials env CI p k g with
    | .error e => .error e
    | .ok (rs, g1) =>
      match confidence_interval env CI p g1 with
      | .error e => .error e
      | .ok (r, g2) => .ok (rs ++ [r], g2)

/-- The whole experiment-set cell: run the loop, then compute the printed
aggregate from the collected columns. -/
def runExperimentSet (env : StatEnv) (CI : ℚ) (p : Prmtrs) (nexp : Nat) (g : Rng) :
    Except String (List TrialResult × AggregateReport) :=
  match run_trials env CI p nexp g with
  | .error e => .error e
  | .ok (rs, _) => .ok (rs, aggregate env p rs)

/-- The sample drawn inside confidence_interval when the scale is accepted:
norv.rvs(size=(n,)) + mu with norv = sst.norm(0., sigma). -/
def ci_sample (p : Prmtrs) (g : Rng) : List ℚ :=
  (norm_draws 0 p.sigma p.n g).map fun x => x + p.mu

/-- Value form of the trial returned by confidence_interval (proof artifact;
ci_eq below proves it is exactly what confidence_interval returns). -/
def ciTrial (env : StatEnv) (CI : ℚ) (p : Prmtrs) (g : Rng) : TrialResult :=
  let sample := ci_sample p g
  let effect := np_mean sample
  let std_error_mean := np_std_ddof1 env sample / env.sqrt (p.n : ℚ)
  let CI_ := env.isf (p.n - 1) ((1 - CI) / 2) * std_error_mean
  ⟨effect, effect - CI_, effect + CI_, effect / std_error_mean⟩

/-- Generator state after one confidence_interval call: n draws consumed. -/
def ciNext (p : Prmtrs) (g : Rng) : Rng := ⟨g.stream, g.pos + p.n⟩

/-- Generator state after k trials: k * n draws consumed. -/
def rngAfter (p : Prmtrs) (k : Nat) (g : Rng) : Rng := ⟨g.stream, g.pos + k * p.n⟩

/-- Value form of the list of trials produced by the loop (proof artifact;
run_trials_eq below proves it is exactly what run_trials returns). -/
def trialSeq (env : StatEnv) (CI : ℚ) (p : Prmtrs) : Nat → Rng → List TrialResult
  | 0, _ => []
  | k + 1, g => trialSeq env CI p k g ++ [ciTrial env CI p (rngAfter p k g)]

/-- Concrete environment for witnesses: isf constantly 1, sqrt constantly 0. -/
def env0 : StatEnv := ⟨fun _ _ => 1, fun _ => 0⟩

/-- Concrete generator for witnesses: the all-zero variate stream at position 0. -/
def g0 : Rng := ⟨fun _ => 0, 0⟩

/-- A generator whose stream agrees with g0 on the first two positions only. -/
def gB : Rng := ⟨fun i => if i < 2 then 0 else 1, 0⟩

/-- Concrete valid parameters for witnesses. -/
def p0 : Prmtrs := ⟨2, 0, 1, 1 / 20⟩

/-- Concrete invalid parameters: sigma = 0 violates sigma > 0 and alpha = 2
lies outside (0,1). -/
def pBad : Prmtrs := ⟨5, 3 / 10, 0, 2⟩

/-- Concrete parameters at the invalid boundary n = 1. -/
def pOne : Prmtrs := ⟨1, 3 / 10, 1, 1 / 20⟩

/-- Concrete parameters with a negative sigma, the one setting the scipy
scale check rejects. -/
def pNeg : Prmtrs := ⟨5, 3 / 10, -1, 1 / 20⟩

/-- The interval property asserted by the bounds claim for one returned
trial: the bounds bracket the effect and are effect minus and plus halfwidth, with
halfwidth = isf((1-CI)/2) of Student t with n-1 degrees of freedom times
the standard error of the mean. -/
def confidenceBoundsProp (env : StatEnv) (CI : ℚ) (p : Prmtrs) (g : Rng)
    (r : TrialResult) : Prop :=
  r.lCI ≤ r.effect ∧ r.effect ≤ r.uCI ∧
  r.lCI = r.effect - env.isf (p.n - 1) ((1 - CI) / 2)
      * (np_std_ddof1 env (ci_sample p g) / env.sqrt (p.n : ℚ)) ∧
  r.uCI = r.effect + env.isf (p.n - 1) ((1 - CI) / 2)
      * (np_std_ddof1 env (ci_sample p g) / env.sqrt (p.n : ℚ))

/-- The per-trial statistics asserted by the estimator claim: the effect is
the sample mean; the t statistic agrees with the notebook function
t_value_from_sample on the same sample; and it equals the effect divided by
the standard error built from the Bessel-corrected variance (sum of squared
deviations over n-1) and sqrt n. -/
def trialStatisticsProp (env : StatEnv) (p : Prmtrs) (g : Rng) (r : TrialResult) : Prop :=
  r.effect = np_mean (ci_sample p g) ∧
  r.t = t_value_from_sample env (ci_sample p g) ∧
  r.t = r.effect /
    (env.sqrt (((ci_sample p g).map fun x => (x - np_mean (ci_sample p g)) ^ 2).sum
        / ((p.n : ℚ) - 1)) / env.sqrt (p.n : ℚ))

theorem ci_eq (env : StatEnv) (CI : ℚ) (p : Prmtrs) (g : Rng) (h : 0 ≤ p.sigma) :
    confidence_interval env CI p g = .ok (ciTrial env CI p g, ciNext p g) := by
  simp only [confidence_interval, norm_rvs, if_neg (not_lt.mpr h)]
  rfl

theorem ci_raises (env : StatEnv) (CI : ℚ) (p : Prmtrs) (g : Rng) (h : p.sigma < 0) :
    confidence_interval env CI p g = .error "Domain error in arguments" := by
  simp only [confidence_interval, norm_rvs, if_pos h]

theorem ci_ok_inv (env : StatEnv) (CI : ℚ) (p : Prmtrs) (g : Rng)
    (r : TrialResult) (g2 : Rng)
    (h : confidence_interval env CI p g = .ok (r, g2)) :
    r = ciTrial env CI p g ∧ g2 = ciNext p g := by
  rcases lt_or_ge p.sigma 0 with hneg | hpos
  · rw [ci_raises env CI p g hneg] at h
    exact Except.noConfusion h
  · rw [ci_eq env CI p g hpos] at h
    injection h with h1
    injection h1 with hr hg
    exact ⟨hr.symm, hg.symm⟩

theorem ci_sample_length (p : Prmtrs) (g : Rng) : (ci_sample p g).length = p.n := by
  simp [ci_sample, norm_draws]

theorem run_trials_eq (env : StatEnv) (CI : ℚ) (p : Prmtrs) (k : Nat) (g : Rng)
    (h : 0 ≤ p.sigma) :
    run_trials env CI p k g = .ok (trialSeq env CI p k g, rngAfter p k g) := by
  induction k with
  | zero =>
    cases g with
    | mk s q => simp [run_trials, trialSeq, rngAfter]
  | succ k ih =>
    simp only [run_trials, ih, trialSeq]
    rw [ci_eq env CI p (rngAfter p k g) h]
    simp [ciNext, rngAfter, Nat.succ_mul, Nat.add_assoc]

theorem run_trials_error (env : StatEnv) (CI : ℚ) (p : Prmtrs) (h : p.sigma < 0) :
    ∀ (k : Nat) (g : Rng),
      run_trials env CI p (k + 1) g = .error "Domain error in arguments" := by
  intro k
  induction k with
  | zero =>
    intro g
    have hstep : run_trials env CI p 1 g =
        match confidence_interval env CI p g with
        | .error e => .error e
        | .ok (r, g2) => .ok ([] ++ [r], g2) := rfl
    rw [hstep, ci_raises env CI p g h]
  | succ k ih =>
    intro g
    have hstep : run_trials env CI p (k + 1 + 1) g =
        match run_trials env CI p (k + 1) g with
        | .error e => .error e
        | .ok (rs, g1) =>
          match confidence_interval env CI p g1 with
          | .error e => .error e
          | .ok (r, g2) => .ok (rs ++ [r], g2) := rfl
    rw [hstep, ih g]

theorem runES_eq (env : StatEnv) (CI : ℚ) (p : Prmtrs) (nexp : Nat) (g : Rng)
    (h : 0 ≤ p.sigma) :
    runExperimentSet env CI p nexp g =
      .ok (trialSeq env CI p nexp g, aggregate env p (trialSeq env CI p nexp g)) := by
  simp only [runExperimentSet, run_trials_eq env CI p nexp g h]

theorem runES_error (env : StatEnv) (CI : ℚ) (p : Prmtrs) (h : p.sigma < 0)
    (k : Nat) (g : Rng) :
    runExperimentSet env CI p (k + 1) g = .error "Domain error in arguments" := by
  simp only [runExperimentSet, run_trials_error env CI p h k g]

theorem runES_ok_inv (env : StatEnv) (CI : ℚ) (p : Prmtrs) (nexp : Nat) (g : Rng)
    (rs : List TrialResult) (rep : AggregateReport)
    (h : runExperimentSet env CI p nexp g = .ok (rs, rep)) :
    rs = trialSeq env CI p nexp g ∧ rep = aggregate env p (trialSeq env CI p nexp g) := by
  rcases lt_or_ge p.sigma 0 with hneg | hpos
  · cases nexp with
    | zero =>
      have h0 : runExperimentSet env CI p 0 g = .ok ([], aggregate env p []) := rfl
      rw [h0] at h
      injection h with h1
      injection h1 with hrs hrep
      exact ⟨hrs.symm, hrep.symm⟩
    | succ k =>
      rw [runES_error env CI p hneg k g] at h
      exact Except.noConfusion h
  · rw [runES_eq env CI p nexp g hpos] at h
    injection h with h1
    injection h1 with hrs hrep
    exact ⟨hrs.symm, hrep.symm⟩

theorem trialSeq_length (env : StatEnv) (CI : ℚ) (p : Prmtrs) (k : Nat) (g : Rng) :
    (trialSeq env CI p k g).length = k := by
  induction k with
  | zero => rfl
  | succ k ih => simp [trialSeq, ih]

theorem trialSeq_sublist (env : StatEnv) (CI : ℚ) (p : Prmtrs) (g : Rng)
    (k m : Nat) (h : k ≤ m) :
    List.Sublist (trialSeq env CI p k g) (trialSeq env CI p m g) := by
  induction h with
  | refl => exact List.Sublist.refl _
  | step h2 ih => exact ih.trans (List.sublist_append_left _ _)

theorem ciTrial_congr (env : StatEnv) (CI : ℚ) (p : Prmtrs) (g1 g2 : Rng)
    (h : ∀ i, i < p.n → g1.stream (g1.pos + i) = g2.stream (g2.pos + i)) :
    ciTrial env CI p g1 = ciTrial env CI p g2 := by
  have hs : ci_sample p g1 = ci_sample p g2 := by
    unfold ci_sample norm_draws
    refine congrArg _ ?_
    exact List.map_congr_left fun i hi => by rw [h i (List.mem_range.mp hi)]
  unfold ciTrial
  rw [hs]

theorem trialSeq_congr (env : StatEnv) (CI : ℚ) (p : Prmtrs) (k : Nat) (g1 g2 : Rng)
    (hh : ∀ i, i < k * p.n → g1.stream (g1.pos + i) = g2.stream (g2.pos + i)) :
    trialSeq env CI p k g1 = trialSeq env CI p k g2 := by
  induction k with
  | zero => rfl
  | succ k ih =>
    have h1 : ∀ i, i < k * p.n → g1.stream (g1.pos + i) = g2.stream (g2.pos + i) :=
      fun i hi => hh i (lt_of_lt_of_le hi (Nat.mul_le_mul_right _ (Nat.le_succ k)))
    unfold trialSeq
    rw [ih h1]
    refine congrArg _ ?_
    refine congrArg (fun r => [r]) ?_
    refine ciTrial_congr env CI p _ _ ?_
    intro i hi
    show g1.stream (g1.pos + k * p.n + i) = g2.stream (g2.pos + k * p.n + i)
    rw [Nat.add_assoc, Nat.add_assoc]
    refine hh (k * p.n + i) ?_
    calc k * p.n + i < k * p.n + p.n := Nat.add_lt_add_left hi _
      _ = (k + 1) * p.n := (Nat.succ_mul k p.n).symm

theorem norm_draws_shift (mu sigma : ℚ) (n : Nat) (g : Rng) :
    ((norm_draws 0 sigma n g).map fun x => x + mu) = norm_draws mu sigma n g := by
  simp only [norm_draws, List.map_map]
  refine List.map_congr_left fun i _ => ?_
  simp only [Function.comp_apply]
  ring

/-- Claim C1 (amended): confidence_interval performs no parameter validation
of its own.  The only failure is the scipy domain check at the sampling
call, which rejects sigma < 0; for every parameter setting with
sigma ≥ 0 — including the invalid sigma = 0, n < 2, and alpha or CI outside
(0,1) — the call returns normally, the libraries producing degenerate
values instead of raising. -/
theorem c1_no_parameter_validation (env : StatEnv) (CI : ℚ) (p : Prmtrs) (g : Rng) :
    (p.sigma < 0 → confidence_interval env CI p g = .error "Domain error in arguments") ∧
    (0 ≤ p.sigma → (confidence_interval env CI p g).isOk = true) := by
  constructor
  · intro hneg
    exact ci_raises env CI p g hneg
  · intro hpos
    rw [ci_eq env CI p g hpos]
    rfl

/-- Claim C1 witness: the amended statement applied at the concrete
rejected setting sigma = -1 and at the concrete accepted invalid setting
sigma = 0, alpha = 2. -/
theorem c1_no_parameter_validation_witness :
    confidence_interval env0 (19 / 20) pNeg g0 = .error "Domain error in arguments" ∧
    (confidence_interval env0 (19 / 20) pBad g0).isOk = true :=
  ⟨(c1_no_parameter_validation env0 (19 / 20) pNeg g0).1 (by norm_num [pNeg]),
   (c1_no_parameter_validation env0 (19 / 20) pBad g0).2 (by norm_num [pBad])⟩

/-- Claim C1 counterexample: at the concrete invalid parameters pBad
(sigma = 0, alpha = 2) the call does not fail with a parameter-validation
error, contradicting the claim that invalid parameters fail fast. -/
theorem c1_counterexample :
    pBad.sigma ≤ 0 ∧ ¬ ∃ e, confidence_interval env0 (19 / 20) pBad g0 = Except.error e := by
  refine ⟨by norm_num [pBad], ?_⟩
  rintro ⟨e, h⟩
  rw [ci_eq env0 (19 / 20) pBad g0 (by norm_num [pBad])] at h
  exact Except.noConfusion h

/-- Claim C2: for valid parameters, every trial returned by
confidence_interval satisfies lowerBound ≤ effect ≤ upperBound, where the
bounds are the effect minus and plus isf((1-CI)/2) of Student t with n-1
degrees of freedom times the standard error of the mean.  The analytic facts
about the external capabilities (np.sqrt is nonnegative, and the t isf of an
upper-tail probability strictly between 0 and 1/2 is nonnegative) enter as
explicit hypotheses. -/
theorem c2_confidence_bounds (env : StatEnv) (CI : ℚ) (p : Prmtrs) (g : Rng)
    (r : TrialResult) (g2 : Rng)
    (hn : 2 ≤ p.n) (hsigma : 0 < p.sigma)
    (halpha : 0 < p.alpha ∧ p.alpha < 1) (hCI : 0 < CI ∧ CI < 1)
    (hsqrt : ∀ x, 0 ≤ env.sqrt x)
    (hisf : ∀ df q, 0 < q → q < 1 / 2 → 0 ≤ env.isf df q)
    (h : confidence_interval env CI p g = .ok (r, g2)) :
    confidenceBoundsProp env CI p g r := by
  obtain ⟨hr, -⟩ := ci_ok_inv env CI p g r g2 h
  subst hr
  have hsem : 0 ≤ np_std_ddof1 env (ci_sample p g) / env.sqrt (p.n : ℚ) := by
    unfold np_std_ddof1
    exact div_nonneg (hsqrt _) (hsqrt _)
  have hq1 : 0 < (1 - CI) / 2 := by linarith [hCI.2]
  have hq2 : (1 - CI) / 2 < 1 / 2 := by linarith [hCI.1]
  have hhw : 0 ≤ env.isf (p.n - 1) ((1 - CI) / 2)
      * (np_std_ddof1 env (ci_sample p g) / env.sqrt (p.n : ℚ)) :=
    mul_nonneg (hisf _ _ hq1 hq2) hsem
  simp only [confidenceBoundsProp, ciTrial]
  refine ⟨sub_le_self _ hhw, le_add_of_nonneg_right hhw, ?_, ?_⟩ <;> trivial

/-- Claim C2 witness at concrete valid parameters and a concrete environment
satisfying the capability hypotheses. -/
theorem c2_confidence_bounds_witness :
    confidenceBoundsProp env0 (19 / 20) p0 g0 (ciTrial env0 (19 / 20) p0 g0) :=
  c2_confidence_bounds env0 (19 / 20) p0 g0 (ciTrial env0 (19 / 20) p0 g0) (ciNext p0 g0)
    (by norm_num [p0]) (by norm_num [p0])
    (by constructor <;> norm_num [p0]) (by constructor <;> norm_num)
    (fun x => by norm_num [env0])
    (fun df q h1 h2 => by norm_num [env0])
    (ci_eq env0 (19 / 20) p0 g0 (by norm_num [p0]))

/-- Claim C3 (amended): meanEffectDetected is computed only over the detected
subset, but when detectionCount = 0 the code does not report it as undefined
or absent: it evaluates the mean of the empty selection, silently producing
the degenerate division-by-zero value (NaN in numpy, 0 in this rational
embedding) without labeling. -/
theorem c3_mean_detected_over_subset (env : StatEnv) (CI : ℚ) (p : Prmtrs)
    (nexp : Nat) (g : Rng) (rs : List TrialResult) (rep : AggregateReport)
    (h : runExperimentSet env CI p nexp g = .ok (rs, rep)) :
    rep.meanEffectDetected =
      np_mean ((rs.filter (detect (env.isf (p.n - 1) p.alpha))).map TrialResult.effect) ∧
    (rep.detectionCount = 0 → rep.meanEffectDetected = 0) := by
  obtain ⟨hrs, hrep⟩ := runES_ok_inv env CI p nexp g rs rep h
  subst hrs
  subst hrep
  constructor
  · simp [aggregate]
  · intro h0
    simp only [aggregate] at h0 ⊢
    rw [List.length_eq_zero] at h0
    rw [h0]
    simp [np_mean]

/-- Claim C3 witness: the amended statement applied at a concrete run. -/
theorem c3_mean_detected_witness :
    (aggregate env0 p0 (trialSeq env0 (19 / 20) p0 1 g0)).meanEffectDetected =
      np_mean (((trialSeq env0 (19 / 20) p0 1 g0).filter
        (detect (env0.isf (p0.n - 1) p0.alpha))).map TrialResult.effect) ∧
    ((aggregate env0 p0 (trialSeq env0 (19 / 20) p0 1 g0)).detectionCount = 0 →
      (aggregate env0 p0 (trialSeq env0 (19 / 20) p0 1 g0)).meanEffectDetected = 0) :=
  c3_mean_detected_over_subset env0 (19 / 20) p0 1 g0 _ _
    (runES_eq env0 (19 / 20) p0 1 g0 (by norm_num [p0]))

/-- Claim C3 counterexample: a concrete run with detectionCount = 0 in which
meanEffectDetected is nevertheless present in the report, silently carrying
the degenerate empty-selection mean (0 here, NaN in numpy), contradicting
the claim that the field is undefined or absent in this case. -/
theorem c3_counterexample :
    ∃ rs rep, runExperimentSet env0 (19 / 20) p0 1 g0 = Except.ok (rs, rep) ∧
      rep.detectionCount = 0 ∧ rep.meanEffectDetected = 0 := by
  have hrange : List.range 2 = [0, 1] := rfl
  have hone : trialSeq env0 (19 / 20) p0 1 g0 = [ciTrial env0 (19 / 20) p0 g0] := rfl
  have hs : ci_sample p0 g0 = [0, 0] := by
    simp [ci_sample, norm_draws, p0, g0, hrange]
  have hr : ciTrial env0 (19 / 20) p0 g0 = ⟨0, 0, 0, 0⟩ := by
    simp [ciTrial, hs, np_mean, np_std_ddof1, np_var_ddof1, env0]
  refine ⟨_, _, runES_eq env0 (19 / 20) p0 1 g0 (by norm_num [p0]), ?_, ?_⟩
  · show (aggregate env0 p0 (trialSeq env0 (19 / 20) p0 1 g0)).detectionCount = 0
    rw [hone, hr]
    norm_num [aggregate, detect, env0, p0]
  · show (aggregate env0 p0 (trialSeq env0 (19 / 20) p0 1 g0)).meanEffectDetected = 0
    rw [hone, hr]
    norm_num [aggregate, detect, env0, p0, np_mean]

/-- Claim C4: detection is exactly the strictly one-sided right-tailed
comparison of the t statistic with the critical value
t_alpha = isf of Student t with n-1 degrees of freedom at alpha: detect is
true iff tStatistic > t_alpha, and every trial with tStatistic ≤ t_alpha
(including arbitrarily negative values) is not detected. -/
theorem c4_one_sided_detection (env : StatEnv) (p : Prmtrs) (r : TrialResult) :
    (detect (env.isf (p.n - 1) p.alpha) r = true ↔ env.isf (p.n - 1) p.alpha < r.t) ∧
    (r.t ≤ env.isf (p.n - 1) p.alpha → detect (env.isf (p.n - 1) p.alpha) r = false) := by
  constructor
  · simp [detect]
  · intro hle
    simp only [detect, decide_eq_false_iff_not]
    exact not_lt.mpr hle

/-- Claim C4 witness: a concrete trial whose t statistic lies below the
critical value (even a negative one would do) is not detected. -/
theorem c4_one_sided_detection_witness :
    detect (env0.isf (p0.n - 1) p0.alpha) ⟨0, 0, 0, 1 / 2⟩ = false :=
  (c4_one_sided_detection env0 p0 ⟨0, 0, 0, 1 / 2⟩).2 (by norm_num [env0])

/-- Claim C5: the trial returned by confidence_interval has effect equal to
the sample mean; its t statistic agrees with the notebook function
t_value_from_sample on the same sample; and the t statistic is the effect
divided by the standard error, built from the Bessel-corrected standard
deviation (sum of squared deviations divided by n-1, not n) over sqrt n. -/
theorem c5_trial_statistics (env : StatEnv) (CI : ℚ) (p : Prmtrs) (g : Rng)
    (r : TrialResult) (g2 : Rng)
    (h : confidence_interval env CI p g = .ok (r, g2)) :
    trialStatisticsProp env p g r := by
  obtain ⟨hr, -⟩ := ci_ok_inv env CI p g r g2 h
  subst hr
  refine ⟨rfl, ?_, ?_⟩
  · show np_mean (ci_sample p g) / (np_std_ddof1 env (ci_sample p g) / env.sqrt (p.n : ℚ))
      = t_value_from_sample env (ci_sample p g)
    simp only [t_value_from_sample, np_std_ddof1]
    rw [ci_sample_length]
  · show np_mean (ci_sample p g) / (np_std_ddof1 env (ci_sample p g) / env.sqrt (p.n : ℚ))
      = np_mean (ci_sample p g) /
        (env.sqrt (((ci_sample p g).map fun x => (x - np_mean (ci_sample p g)) ^ 2).sum
            / ((p.n : ℚ) - 1)) / env.sqrt (p.n : ℚ))
    simp only [np_std_ddof1, np_var_ddof1]
    rw [ci_sample_length]

/-- Claim C5 witness at concrete parameters. -/
theorem c5_trial_statistics_witness :
    trialStatisticsProp env0 p0 g0 (ciTrial env0 (19 / 20) p0 g0) :=
  c5_trial_statistics env0 (19 / 20) p0 g0 (ciTrial env0 (19 / 20) p0 g0) (ciNext p0 g0)
    (ci_eq env0 (19 / 20) p0 g0 (by norm_num [p0]))

/-- Claim C6 (amended): at the boundary of the parameter domain, with a
sigma the scipy scale check accepts (sigma ≥ 0), the code raises nothing:
n = 2 completes without error, and n = 1 also completes without raising
InvalidParameter, because confidence_interval contains no parameter
validation; the degrees-of-freedom-zero computation proceeds with
degenerate values. -/
theorem c6_boundary_behaviour (env : StatEnv) (CI mu sigma alpha : ℚ)
    (hsigma : 0 ≤ sigma) (g : Rng) :
    (confidence_interval env CI ⟨2, mu, sigma, alpha⟩ g).isOk = true ∧
    (confidence_interval env CI ⟨1, mu, sigma, alpha⟩ g).isOk = true := by
  constructor
  · rw [ci_eq env CI ⟨2, mu, sigma, alpha⟩ g hsigma]
    rfl
  · rw [ci_eq env CI ⟨1, mu, sigma, alpha⟩ g hsigma]
    rfl

/-- Claim C6 witness: the amended statement at concrete boundary inputs. -/
theorem c6_boundary_behaviour_witness :
    (confidence_interval env0 (19 / 20) ⟨2, 3 / 10, 1, 1 / 20⟩ g0).isOk = true ∧
    (confidence_interval env0 (19 / 20) ⟨1, 3 / 10, 1, 1 / 20⟩ g0).isOk = true :=
  c6_boundary_behaviour env0 (19 / 20) (3 / 10) 1 (1 / 20) (by norm_num) g0

/-- Claim C6 counterexample: the concrete call with n = 1 does not fail with
an InvalidParameter error, contradicting the claim that n = 1 raises. -/
theorem c6_counterexample :
    pOne.n = 1 ∧ ¬ ∃ e, confidence_interval env0 (19 / 20) pOne g0 = Except.error e := by
  refine ⟨rfl, ?_⟩
  rintro ⟨e, h⟩
  rw [ci_eq env0 (19 / 20) pOne g0 (by norm_num [pOne])] at h
  exact Except.noConfusion h

/-- Claim C7: with a fixed seed the whole experiment set is reproducible
bit for bit.  Two generator states whose variate streams agree on the
(trialCount * n)-draw window actually consumed (in particular two runs from
the same seed, whose streams agree everywhere) produce identical outputs:
the same trial list (effect, lowerBound, upperBound, tStatistic sequences)
and the same aggregate report. -/
theorem c7_fixed_seed_reproducible (env : StatEnv) (CI : ℚ) (p : Prmtrs)
    (nexp : Nat) (g1 g2 : Rng)
    (h : ∀ i, i < nexp * p.n → g1.stream (g1.pos + i) = g2.stream (g2.pos + i)) :
    runExperimentSet env CI p nexp g1 = runExperimentSet env CI p nexp g2 := by
  rcases lt_or_ge p.sigma 0 with hneg | hpos
  · cases nexp with
    | zero => rfl
    | succ k =>
      rw [runES_error env CI p hneg k g1, runES_error env CI p hneg k g2]
  · rw [runES_eq env CI p nexp g1 hpos, runES_eq env CI p nexp g2 hpos,
      trialSeq_congr env CI p nexp g1 g2 h]

/-- Claim C7 witness: two concrete generators that agree on the two draws a
one-trial run consumes (and differ afterwards) give identical outputs. -/
theorem c7_fixed_seed_reproducible_witness :
    runExperimentSet env0 (19 / 20) p0 1 g0 = runExperimentSet env0 (19 / 20) p0 1 gB :=
  c7_fixed_seed_reproducible env0 (19 / 20) p0 1 g0 gB (by decide)

/-- Claim C8: the sampling step of the code, drawing n values from a normal
with mean 0 and standard deviation sigma and adding mu, is equivalent to the
spec wording of drawing n values from a normal with mean mu and standard
deviation sigma: on the same underlying standard variates the two procedures
produce the same sample, and hence confidence_interval returns the same
result as the spec-worded variant on every input (both also reject a
negative sigma through the same scale check). -/
theorem c8_sampling_refinement (env : StatEnv) (CI : ℚ) (p : Prmtrs) (g : Rng) :
    ((norm_draws 0 p.sigma p.n g).map fun x => x + p.mu) = norm_draws p.mu p.sigma p.n g ∧
    confidence_interval env CI p g = confidence_interval_specDraw env CI p g := by
  refine ⟨norm_draws_shift p.mu p.sigma p.n g, ?_⟩
  rcases lt_or_ge p.sigma 0 with hneg | hpos
  · rw [ci_raises env CI p g hneg]
    simp [confidence_interval_specDraw, norm_rvs, if_pos hneg]
  · rw [ci_eq env CI p g hpos]
    simp only [confidence_interval_specDraw, norm_rvs, if_neg (not_lt.mpr hpos)]
    simp only [ciTrial, ciNext, ci_sample]
    rw [norm_draws_shift]

/-- Claim C9: the detection count of the aggregate report is a natural
number bounded by the number of trials processed, and it is monotonically
non-decreasing as more trials are folded in: any run over an initial segment
of the trial sequence reports a detection count no larger than the full run. -/
theorem c9_detection_count (env : StatEnv) (CI : ℚ) (p : Prmtrs) (nexp : Nat) (g : Rng)
    (rs : List TrialResult) (rep : AggregateReport)
    (h : runExperimentSet env CI p nexp g = .ok (rs, rep)) :
    rep.detectionCount ≤ nexp ∧
    ∀ k rs2 rep2, k ≤ nexp → runExperimentSet env CI p k g = .ok (rs2, rep2) →
      rep2.detectionCount ≤ rep.detectionCount := by
  obtain ⟨hrs, hrep⟩ := runES_ok_inv env CI p nexp g rs rep h
  subst hrs
  subst hrep
  constructor
  · calc (aggregate env p (trialSeq env CI p nexp g)).detectionCount
        = ((trialSeq env CI p nexp g).filter
            (detect (env.isf (p.n - 1) p.alpha))).length := by simp [aggregate]
      _ ≤ (trialSeq env CI p nexp g).length := List.length_filter_le _ _
      _ = nexp := trialSeq_length env CI p nexp g
  · intro k rs2 rep2 hk h2
    obtain ⟨hrs2, hrep2⟩ := runES_ok_inv env CI p k g rs2 rep2 h2
    subst hrs2
    subst hrep2
    simp only [aggregate]
    exact ((trialSeq_sublist env CI p g k nexp hk).filter _).length_le

/-- Claim C9 witness at a concrete one-trial run. -/
theorem c9_detection_count_witness :
    (aggregate env0 p0 (trialSeq env0 (19 / 20) p0 1 g0)).detectionCount ≤ 1 ∧
    ∀ k rs2 rep2, k ≤ 1 → runExperimentSet env0 (19 / 20) p0 k g0 = .ok (rs2, rep2) →
      rep2.detectionCount ≤ (aggregate env0 p0 (trialSeq env0 (19 / 20) p0 1 g0)).detectionCount :=
  c9_detection_count env0 (19 / 20) p0 1 g0 _ _
    (runES_eq env0 (19 / 20) p0 1 g0 (by norm_num [p0]))

/-- Claim C10: the returned trial does not depend on alpha.  Two calls of
confidence_interval with identical n, mu, sigma, CI and the same generator
state but different alpha values return identical results: alpha is unpacked
and feeds only the unused detection threshold t_alph. -/
theorem c10_alpha_does_not_affect_trial (env : StatEnv) (CI : ℚ) (n : Nat)
    (mu sigma a1 a2 : ℚ) (g : Rng) :
    confidence_interval env CI ⟨n, mu, sigma, a1⟩ g =
      confidence_interval env CI ⟨n, mu, sigma, a2⟩ g := rfl

end EvilP
